import Mathlib

/-!
Shallow embedding of the core of the `querier` package: the `Filter`
query-construction class (src/querier/filter.py) and the `Result` fan-out
iterator (src/querier/result.py), together with theorems checking the
specification's claims against these definitions.

Python dicts are modelled as insertion-ordered association structures over a
JSON-like value type; mutating methods are modelled as state transformers
that return the receiver's state after the call alongside the returned
value or raised exception.
-/

namespace Querier

mutual

/-- Values stored inside a query document: the JSON-like fragment of Python
values that `Filter` manipulates (numbers, strings, booleans, lists, dicts).
Dicts (`BDict`) are insertion-ordered sequences of key-value pairs; real
Python dicts always have pairwise-distinct keys (see `keysNodup` below). -/
inductive BVal where
  | num : Int → BVal
  | str : String → BVal
  | bool : Bool → BVal
  | arr : BList → BVal
  | obj : BDict → BVal
deriving DecidableEq

/-- A Python list of embedded values. -/
inductive BList where
  | nil : BList
  | cons : BVal → BList → BList
deriving DecidableEq

/-- A Python dict with string keys, as `Filter` instances are. -/
inductive BDict where
  | nil : BDict
  | cons : String → BVal → BDict → BDict
deriving DecidableEq

end

/-- Structure-only induction principle for `BDict`: its spine is a plain
list of key-value pairs, so no motive on `BVal` is needed. -/
def BDict.recSpine.{u} {motive : BDict → Sort u} (nil : motive BDict.nil)
    (cons : (k : String) → (v : BVal) → (rest : BDict) → motive rest →
      motive (BDict.cons k v rest)) : (d : BDict) → motive d
  | BDict.nil => nil
  | BDict.cons k v rest => cons k v rest (BDict.recSpine nil cons rest)

/-- Structure-only induction principle for `BList`. -/
def BList.recSpine.{u} {motive : BList → Sort u} (nil : motive BList.nil)
    (cons : (v : BVal) → (rest : BList) → motive rest →
      motive (BList.cons v rest)) : (l : BList) → motive l
  | BList.nil => nil
  | BList.cons v rest => cons v rest (BList.recSpine nil cons rest)

/-- Build an embedded Python list from a Lean list (literal helper). -/
def bl : List BVal → BList
  | [] => BList.nil
  | v :: rest => BList.cons v (bl rest)

/-- Build an embedded Python dict from a Lean association list (literal
helper). -/
def bd : List (String × BVal) → BDict
  | [] => BDict.nil
  | (k, v) :: rest => BDict.cons k v (bd rest)

/-- View an embedded Python list as a Lean list. -/
def blToList : BList → List BVal
  | BList.nil => []
  | BList.cons v rest => v :: blToList rest

/-- View an embedded Python dict as a Lean association list. -/
def dictToList : BDict → List (String × BVal)
  | BDict.nil => []
  | BDict.cons k v rest => (k, v) :: dictToList rest

/-- Python `len` of a list. -/
def blistLen (l : BList) : Nat := (blToList l).length

/-- Python `list1 + list2` (and the effect of `list.append`). -/
def blistAppend : BList → BList → BList
  | BList.nil, l2 => l2
  | BList.cons v rest, l2 => BList.cons v (blistAppend rest l2)

/-- Python `len` of a dict. -/
def dictLen (d : BDict) : Nat := (dictToList d).length

/-- Concatenate two dicts whose keys do not overlap (used to describe where
`dictSet` puts a fresh key: at the end, as Python dicts do). -/
def dictAppend : BDict → BDict → BDict
  | BDict.nil, d2 => d2
  | BDict.cons k v rest, d2 => BDict.cons k v (dictAppend rest d2)

/-- Python `d[k]` / `d.get(k)`: first matching key (real dicts are nodup). -/
def dictGet : BDict → String → Option BVal
  | BDict.nil, _ => none
  | BDict.cons k2 v2 rest, k => if k2 = k then some v2 else dictGet rest k

/-- Python `d[k] = v`: update the existing entry in place, preserving
insertion order, or append a new entry at the end. -/
def dictSet : BDict → String → BVal → BDict
  | BDict.nil, k, v => BDict.cons k v BDict.nil
  | BDict.cons k2 v2 rest, k, v =>
      if k2 = k then BDict.cons k v rest else BDict.cons k2 v2 (dictSet rest k v)

/-- Python `list(d.keys())`. -/
def dictKeys : BDict → List String
  | BDict.nil => []
  | BDict.cons k _ rest => k :: dictKeys rest

/-- Python `k in d`. -/
def dictHasKey (d : BDict) (k : String) : Bool := (dictGet d k).isSome

/-- Keys of a dict are pairwise distinct — the representation invariant every
real Python dict satisfies. -/
def keysNodup : BDict → Bool
  | BDict.nil => true
  | BDict.cons k _ rest => !(dictHasKey rest k) && keysNodup rest

mutual

/-- Python `==` on embedded values. Numbers, strings and booleans compare
directly; lists compare pointwise; dicts compare as unordered key-to-value
mappings, as CPython's dict equality does. -/
def pyEq : BVal → BVal → Bool
  | .num x, .num y => x == y
  | .str x, .str y => x == y
  | .bool x, .bool y => x == y
  | .arr x, .arr y => pyEqList x y
  | .obj x, .obj y => dictLen x == dictLen y && pyEqMem x y
  | _, _ => false

/-- Pointwise Python `==` of two lists (lengths must agree). -/
def pyEqList : BList → BList → Bool
  | BList.nil, BList.nil => true
  | BList.cons a as, BList.cons b bs => pyEq a b && pyEqList as bs
  | _, _ => false

/-- Every entry of the first dict has an equal value under the same key in
the second. -/
def pyEqMem : BDict → BDict → Bool
  | BDict.nil, _ => true
  | BDict.cons k v rest, b =>
      (match dictGet b k with
       | some w => pyEq v w
       | none => false) && pyEqMem rest b

end

/-- Python `==` between two dicts (what `other == self` runs in
`Filter._logical_op`). -/
def pyEqObj (a b : BDict) : Bool := pyEq (BVal.obj a) (BVal.obj b)

mutual

/-- Well-formedness of an embedded value: every dict appearing in the value
has pairwise-distinct keys. -/
def bvalWF : BVal → Bool
  | .num _ => true
  | .str _ => true
  | .bool _ => true
  | .arr x => blistWF x
  | .obj x => keysNodup x && bdictValsWF x

/-- Every element of the list is well-formed. -/
def blistWF : BList → Bool
  | BList.nil => true
  | BList.cons v rest => bvalWF v && blistWF rest

/-- Every value of the dict is well-formed. -/
def bdictValsWF : BDict → Bool
  | BDict.nil => true
  | BDict.cons _ v rest => bvalWF v && bdictValsWF rest

end

/-- Well-formedness of a dict: it and all nested dicts have distinct keys. -/
def dictWF (d : BDict) : Bool := keysNodup d && bdictValsWF d

theorem dictGet_dictSet_self (l : BDict) (k : String) (v : BVal) :
    dictGet (dictSet l k v) k = some v := by
  induction l using BDict.recSpine with
  | nil => simp [dictSet, dictGet]
  | cons k2 v2 tl ih =>
      by_cases h : k2 = k
      · subst h
        simp [dictSet, dictGet]
      · simp [dictSet, dictGet, h, ih]

theorem dictSet_of_get_none (l : BDict) (k : String) (v : BVal)
    (h : dictGet l k = none) :
    dictSet l k v = dictAppend l (BDict.cons k v BDict.nil) := by
  induction l using BDict.recSpine with
  | nil => simp [dictSet, dictAppend]
  | cons k2 v2 tl ih =>
      by_cases hk : k2 = k
      · subst hk
        simp [dictGet] at h
      · simp [dictGet, hk] at h
        simp [dictSet, dictAppend, hk, ih h]

theorem dictSet_dictSet_self (l : BDict) (k : String) (v w : BVal) :
    dictSet (dictSet l k v) k w = dictSet l k w := by
  induction l using BDict.recSpine with
  | nil => simp [dictSet]
  | cons k2 v2 tl ih =>
      by_cases h : k2 = k
      · subst h
        simp [dictSet]
      · simp [dictSet, h, ih]

theorem dictGet_isSome_of_mem (l : BDict) (k : String) (v : BVal)
    (h : (k, v) ∈ dictToList l) : (dictGet l k).isSome = true := by
  induction l using BDict.recSpine with
  | nil => simp [dictToList] at h
  | cons k2 v2 tl ih =>
      simp only [dictToList] at h
      rcases List.mem_cons.mp h with h1 | h1
      · cases h1
        simp [dictGet]
      · by_cases hk : k2 = k
        · simp [dictGet, hk]
        · simp [dictGet, hk, ih h1]

theorem dictGet_self_of_nodup (l : BDict) (k : String) (v : BVal)
    (hnd : keysNodup l = true) (hmem : (k, v) ∈ dictToList l) :
    dictGet l k = some v := by
  induction l using BDict.recSpine with
  | nil => simp [dictToList] at hmem
  | cons k2 v2 tl ih =>
      simp only [keysNodup, Bool.and_eq_true, Bool.not_eq_true'] at hnd
      simp only [dictToList] at hmem
      rcases List.mem_cons.mp hmem with h | h
      · cases h
        simp [dictGet]
      · have hne : k2 ≠ k := by
          intro hkk
          subst hkk
          have hs : dictHasKey tl k2 = true := by
            simp [dictHasKey, dictGet_isSome_of_mem tl k2 v h]
          simp [hs] at hnd
        simp [dictGet, hne, ih hnd.2 h]

mutual

/-- Python equality is reflexive on well-formed values (as in CPython, where
`x == x` holds for every value of the kinds a query document contains). -/
theorem pyEq_refl : (v : BVal) → bvalWF v = true → pyEq v v = true
  | .num x, _ => by simp [pyEq]
  | .str x, _ => by simp [pyEq]
  | .bool x, _ => by simp [pyEq]
  | .arr x, h => by
      simp only [bvalWF] at h
      simpa [pyEq] using pyEqList_refl x h
  | .obj x, h => by
      simp only [bvalWF, Bool.and_eq_true] at h
      have hm := pyEqMem_lookup_self x x h.2
        (fun k v hmem => dictGet_self_of_nodup x k v h.1 hmem)
      simp [pyEq, hm]

/-- Pointwise reflexivity for lists of well-formed values. -/
theorem pyEqList_refl : (l : BList) → blistWF l = true → pyEqList l l = true
  | BList.nil, _ => by simp [pyEqList]
  | BList.cons v rest, h => by
      simp only [blistWF, Bool.and_eq_true] at h
      simp [pyEqList, pyEq_refl v h.1, pyEqList_refl rest h.2]

/-- Every entry of `l` matches in `b` whenever lookups in `b` return the very
value stored in `l` (the diagonal case of dict equality). -/
theorem pyEqMem_lookup_self : (l b : BDict) → bdictValsWF l = true →
    (∀ k v, (k, v) ∈ dictToList l → dictGet b k = some v) → pyEqMem l b = true
  | BDict.nil, _, _, _ => by simp [pyEqMem]
  | BDict.cons k v rest, b, h, hget => by
      simp only [bdictValsWF, Bool.and_eq_true] at h
      have h1 : dictGet b k = some v := hget k v (by simp [dictToList])
      have h2 : pyEqMem rest b = true :=
        pyEqMem_lookup_self rest b h.2
          (fun k2 v2 hm => hget k2 v2 (by simp [dictToList, hm]))
      simp [pyEqMem, h1, h2, pyEq_refl v h.1]

end

/-- CPython dict equality is reflexive on real (distinct-key) dicts. -/
theorem pyEqObj_refl (a : BDict) (h : dictWF a = true) : pyEqObj a a = true := by
  simp only [dictWF, Bool.and_eq_true] at h
  have hm := pyEqMem_lookup_self a a h.2
    (fun k v hmem => dictGet_self_of_nodup a k v h.1 hmem)
  simp [pyEqObj, pyEq, hm]

/-- Python-equal dicts have the same number of entries. -/
theorem pyEqObj_len (a b : BDict) (h : pyEqObj a b = true) :
    dictLen a = dictLen b := by
  simp only [pyEqObj, pyEq, Bool.and_eq_true] at h
  exact beq_iff_eq.mp h.1

/-- A non-empty dict has a non-empty entry list. -/
theorem dictToList_ne_nil (a : BDict) (h : a ≠ BDict.nil) :
    dictToList a ≠ [] := by
  cases a with
  | nil => exact absurd rfl h
  | cons k v rest => simp [dictToList]

/-- A non-empty dict has a non-zero length. -/
theorem dictLen_ne_zero (a : BDict) (h : a ≠ BDict.nil) : dictLen a ≠ 0 := by
  cases a with
  | nil => exact absurd rfl h
  | cons k v rest => simp [dictLen, dictToList]

/-- Exceptions that the embedded filter code can raise. `invalidFilter`
mirrors `querier.exceptions.InvalidFilter`; `typeError` and `valueError`
mirror the built-in Python exceptions that dynamic typing can surface. -/
inductive PyErr where
  | invalidFilter (msg : String)
  | typeError
  | valueError (msg : String)
deriving DecidableEq

/-- Embedding of `Filter.is_empty` (filter.py line 315): `len(self) == 0`. -/
def is_empty (f : BDict) : Bool := dictLen f == 0

/-- Embedding of `Filter._add_operation` (filter.py lines 405-419). The
`field_id` argument is an arbitrary Python value (`BVal`) since the source
checks its type dynamically; the mutation of the sub-dict through the
`target` alias is rendered as writing the updated sub-dict back under
`field_id`. A non-dict value sitting under `field_id` (or under `"$not"`)
makes the subscript assignment raise a built-in error, modelled as
`typeError`. -/
def addOperation (self : BDict) (fieldId : BVal) (operation : String)
    (value : BVal) (invert : Bool) : Except PyErr BDict :=
  match fieldId with
  | .str fid =>
    let self1 :=
      if (dictGet self fid).isSome then self else dictSet self fid (.obj .nil)
    match dictGet self1 fid with
    | some (.obj target) =>
        if invert then
          let target1 :=
            if (dictGet target "$not").isSome then target
            else dictSet target "$not" (.obj .nil)
          match dictGet target1 "$not" with
          | some (.obj nt) =>
              .ok (dictSet self1 fid
                (.obj (dictSet target1 "$not" (.obj (dictSet nt operation value)))))
          | _ => .error .typeError
        else
          .ok (dictSet self1 fid (.obj (dictSet target operation value)))
    | some _ => .error .typeError
    | none => .error .typeError
  | _ => .error (.invalidFilter "field_id argument must be a string")

/-- Embedding of `Filter.equals` (filter.py lines 104-111): sugar over
`_add_operation` with the fixed operator `$eq` (representative of the named
condition methods that defer to `_add_operation` unconditionally). -/
def equals (self : BDict) (fieldId : BVal) (value : BVal) :
    Except PyErr BDict :=
  addOperation self fieldId "$eq" value false

/-- Embedding of `Filter.any_of` (filter.py lines 123-134): raises
`InvalidFilter` when `values` is not a list, before `_add_operation` with
`$in` runs. -/
def any_of (self : BDict) (fieldId : BVal) (values : BVal) :
    Except PyErr BDict :=
  match values with
  | .arr _ => addOperation self fieldId "$in" values false
  | _ => .error (.invalidFilter "values argument must be of type 'list'")

/-- Embedding of `Filter.none_of` (filter.py lines 136-147): like `any_of`
with `$nin`. -/
def none_of (self : BDict) (fieldId : BVal) (values : BVal) :
    Except PyErr BDict :=
  match values with
  | .arr _ => addOperation self fieldId "$nin" values false
  | _ => .error (.invalidFilter "values argument must be of type 'list'")

/-- Embedding of `Filter._logical_op` (filter.py lines 389-403), as a state
transformer returning (receiver state after the call, `other` state after
the call, returned value or raised exception). `res = self.copy()` is a
shallow copy, so in the same-combinator branch `res[op].append(other)` is
visible through the receiver as well: both end up holding the extended
operand list. -/
def logicalOp (op : String) (self other : BDict) :
    BDict × BDict × Except PyErr BDict :=
  if is_empty self || dictLen other == 0 then
    (self, other, .error (.invalidFilter "One of the filters is empty"))
  else if pyEqObj other self then
    (self, other, .error (.invalidFilter "The argument cannot be the caller filter"))
  else if dictKeys self == [op] then
    match dictGet self op with
    | some (.arr l) =>
        let l2 := blistAppend l (BList.cons (BVal.obj other) BList.nil)
        (BDict.cons op (BVal.arr l2) BDict.nil, other,
         .ok (BDict.cons op (BVal.arr l2) BDict.nil))
    | _ => (self, other, .error .typeError)
  else
    (self, other,
     .ok (BDict.cons op
       (BVal.arr (BList.cons (BVal.obj self)
         (BList.cons (BVal.obj other) BList.nil))) BDict.nil))

/-- Embedding of `Filter.or_filter` (filter.py lines 319-352): the body
`self = self | other; return self` only rebinds the local name `self`, so
the receiver's own state changes exactly as `_logical_op` changes it, and
the returned object is `_logical_op`'s result. -/
def or_filter (self other : BDict) : BDict × BDict × Except PyErr BDict :=
  logicalOp "$or" self other

/-- Embedding of `Filter.and_filter` (filter.py lines 354-387). -/
def and_filter (self other : BDict) : BDict × BDict × Except PyErr BDict :=
  logicalOp "$and" self other

/-- Embedding of `Filter.get_query` (filter.py lines 85-86): `return self`. -/
def get_query (f : BDict) : BDict := f

/-- ASCII model of `str.lower` on one character. -/
def charLower (c : Char) : Char :=
  if 'A' ≤ c && c ≤ 'Z' then Char.ofNat (c.toNat + 32) else c

/-- ASCII model of Python `str.lower()`. -/
def strLower (s : String) : String := String.mk (s.data.map charLower)

/-- Model of Python `str.endswith(p)`. -/
def strEndsWith (s p : String) : Bool := p.data.isSuffixOf s.data

/-- Embedding of `Filter._geo_op` (filter.py lines 270-313). The
"(Multi)Polygon" branch models the `ImportError` fallback path (shapely
absent): close the raw coordinate ring when its first and last points
differ; with shapely installed the geometry dict is produced by that
external collaborator and is out of scope here. The "box" branch
synthesizes the closed five-point rectangle from `(minx, miny, maxx, maxy)`.
Unpacking failures and the unknown-geo-type case raise built-in errors. -/
def geoOp (op : String) (self : BDict) (fieldId : BVal) (geo : BList)
    (geoType : String) (invert : Bool) : Except PyErr BDict :=
  let geoDictE : Except PyErr BVal :=
    if strEndsWith geoType "Polygon" then
      match geo with
      | BList.nil => .error .typeError
      | BList.cons g0 rest =>
          let lastv := (blToList (BList.cons g0 rest)).getLast (by simp [blToList])
          let geo2 :=
            if pyEq g0 lastv then BList.cons g0 rest
            else blistAppend (BList.cons g0 rest) (BList.cons g0 BList.nil)
          .ok (.obj (bd [("coordinates", .arr (bl [.arr geo2])),
                         ("type", .str geoType)]))
    else if strEndsWith (strLower geoType) "box" then
      match geo with
      | BList.cons minx (BList.cons miny (BList.cons maxx
          (BList.cons maxy BList.nil))) =>
          .ok (.obj (bd [("coordinates", .arr (bl [.arr (bl
                [.arr (bl [minx, miny]), .arr (bl [minx, maxy]),
                 .arr (bl [maxx, maxy]), .arr (bl [maxx, miny]),
                 .arr (bl [minx, miny])])])),
              ("type", .str "Polygon")]))
      | _ => .error (.valueError "cannot unpack bounding box coordinates")
    else
      .error (.valueError "geo_type must either be \"(Multi)Polygon\" or \"bbox\"")
  match geoDictE with
  | .ok geoDict =>
      addOperation self fieldId op (.obj (bd [("$geometry", geoDict)])) invert
  | .error e => .error e

/-- Embedding of `Filter.geo_within` (filter.py lines 202-234). -/
def geo_within (self : BDict) (fieldId : BVal) (geo : BList)
    (geoType : String) (invert : Bool) : Except PyErr BDict :=
  geoOp "$geoWithin" self fieldId geo geoType invert

/-- Embedding of `Filter.geo_intersects` (filter.py lines 236-268). -/
def geo_intersects (self : BDict) (fieldId : BVal) (geo : BList)
    (geoType : String) (invert : Bool) : Except PyErr BDict :=
  geoOp "$geoIntersects" self fieldId geo geoType invert

/-- Machine model of Python object identity, needed to state claims about
aliasing: a heap of Filter states addressed by reference. -/
abbrev Heap := List BDict

/-- Dereference a Filter object. -/
def heapGet (h : Heap) (r : Nat) : Option BDict := h.get? r

/-- Overwrite the state of the Filter object at address `r`. -/
def heapSet (h : Heap) (r : Nat) (d : BDict) : Heap := h.set r d

/-- Reference-level embedding of `Filter.get_query`: `return self` hands
back the receiver reference itself — no copy or new object is allocated. -/
def getQueryRef (_h : Heap) (r : Nat) : Nat := r

/-- Reference-level `Filter._add_operation`: mutate the Filter object that
`r` points to. -/
def addOperationRef (h : Heap) (r : Nat) (fieldId : BVal) (operation : String)
    (value : BVal) (invert : Bool) : Except PyErr Heap :=
  match heapGet h r with
  | some d => (addOperation d fieldId operation value invert).map (heapSet h r)
  | none => .error .typeError

/-- Outcomes a pymongo cursor can produce on one `next()` call: a document
(modelled by a numeric id) or an `OperationFailure` carrying a numeric error
code; an exhausted cursor is the empty list. -/
inductive Pull where
  | doc (d : Nat)
  | fail (code : Nat)
deriving DecidableEq

/-- Exceptions a Result consumer can see: the driver's `OperationFailure`;
`querier.exceptions.InternalError` wrapping the code of the failure it was
built from (what `connection._pymongo_call` raises; present here so claims
about wrapping can be stated); or a built-in `TypeError` raised while an
`OperationFailure` was being handled — `typeError code` carries the code of
that chained-context failure. -/
inductive PyExc where
  | operationFailure (code : Nat)
  | internalError (code : Nat)
  | typeError (contextCode : Nat)
deriving DecidableEq

/-- What one `Result.__next__` call does: end the iteration
(`raise StopIteration`), return a document, or raise an exception. -/
inductive StepOut where
  | stopIteration
  | doc (d : Nat)
  | raised (e : PyExc)
deriving DecidableEq

/-- State of a `Result` (result.py lines 37-42): the attached cursors (each
modelled by its list of pending pulls), the current cursor index, the
running count of returned documents, and the limit (0 = unlimited). -/
structure ResultState where
  cursors : List (List Pull)
  idx : Nat
  docsReturned : Nat
  limit : Nat
deriving DecidableEq

/-- Error code 13, reserved for "unauthorized command" (result.py line 9). -/
def UNAUTHORIZED_COMMAND : Nat := 13

/-- Embedding of `Result.limit` (result.py lines 54-82):
`self._limit = max(0, qty)`. -/
def setLimit (s : ResultState) (qty : Int) : ResultState :=
  { s with limit := (max 0 qty).toNat }

/-- Embedding of `Result.__next__` (result.py lines 84-118), with explicit
fuel for the tail recursion that skips exhausted or unauthorized cursors
(`resultNext` supplies enough fuel to reach the end of the cursor list, so
the fuel-out case is unreachable). Returns the step outcome together with
the state after the call. On an `OperationFailure` whose code is not the
reserved one, the handler first evaluates
`module_logger.error("Unhandled exception in result: " + err)` (line 113);
in CPython `str + OperationFailure` raises `TypeError`, so that `TypeError`
propagates (with the `OperationFailure` as chained context, its code kept
here) and line 114's `raise err` is never reached. -/
def resultNextAux : Nat → ResultState → StepOut × ResultState
  | 0, s => (.stopIteration, s)
  | fuel + 1, s =>
    if s.cursors.length ≤ s.idx ∨ (s.limit ≤ s.docsReturned ∧ 0 < s.limit) then
      (.stopIteration, s)
    else
      match s.cursors.get? s.idx with
      | none => (.stopIteration, s)
      | some [] => resultNextAux fuel { s with idx := s.idx + 1 }
      | some (Pull.doc d :: rest) =>
          (.doc d, { s with cursors := s.cursors.set s.idx rest,
                            docsReturned := s.docsReturned + 1 })
      | some (Pull.fail code :: rest) =>
          if code ≠ UNAUTHORIZED_COMMAND then
            (.raised (.typeError code),
             { s with cursors := s.cursors.set s.idx rest })
          else
            resultNextAux fuel { s with idx := s.idx + 1,
                                        cursors := s.cursors.set s.idx rest }

/-- One `Result.__next__` call: each recursive step advances `idx`, which
never exceeds the cursor count, so `length + 1 - idx` fuel always suffices. -/
def resultNext (s : ResultState) : StepOut × ResultState :=
  resultNextAux (s.cursors.length + 1 - s.idx) s

/-- Drive `resultNext` the way a Python for-loop consumes a Result: collect
yielded documents until `StopIteration` ends the loop or an exception
escapes (`fuel` bounds the number of pulls). -/
def runResult : Nat → ResultState → List Nat × Option PyExc
  | 0, _ => ([], none)
  | fuel + 1, s =>
    match resultNext s with
    | (.stopIteration, _) => ([], none)
    | (.doc d, s2) =>
        let r := runResult fuel s2
        (d :: r.1, r.2)
    | (.raised e, _) => ([], some e)

/-- Concrete leaf filter `{"a": {"$eq": 1}}`, used by several claims. -/
def filtA : BDict := bd [("a", BVal.obj (bd [("$eq", BVal.num 1)]))]

/-- Concrete leaf filter `{"b": {"$eq": 2}}`. -/
def filtB : BDict := bd [("b", BVal.obj (bd [("$eq", BVal.num 2)]))]

/-- Concrete leaf filter `{"c": {"$eq": 3}}`. -/
def filtC : BDict := bd [("c", BVal.obj (bd [("$eq", BVal.num 3)]))]

/-- Concrete composite filter `{"$or": [filtA, filtB]}`. -/
def compositeOr : BDict :=
  bd [("$or", BVal.arr (bl [BVal.obj filtA, BVal.obj filtB]))]

/-- On any of the rejected inputs (an empty operand, or `other` equal to the
receiver), `_logical_op` raises `InvalidFilter` before touching either
operand. -/
theorem logicalOp_error_of (op : String) (a b : BDict)
    (h : a = BDict.nil ∨ b = BDict.nil ∨ (b = a ∧ dictWF a = true)) :
    ∃ msg, logicalOp op a b = (a, b, Except.error (PyErr.invalidFilter msg)) := by
  rcases h with h | h | ⟨hba, hwf⟩
  · subst h
    exact ⟨"One of the filters is empty", rfl⟩
  · subst h
    refine ⟨"One of the filters is empty", ?_⟩
    simp [logicalOp, dictLen, dictToList]
  · subst hba
    by_cases hnil : b = BDict.nil
    · subst hnil
      exact ⟨"One of the filters is empty", rfl⟩
    · refine ⟨"The argument cannot be the caller filter", ?_⟩
      have hlen := dictLen_ne_zero b hnil
      simp [logicalOp, is_empty, hlen, pyEqObj_refl b hwf]

/-- With a string field whose current slot is absent or holds a sub-dict,
`_add_operation` succeeds and the stored condition is found under the field
and the operator. -/
theorem addOperation_stores (self : BDict) (fid : String) (operation : String)
    (value : BVal)
    (h : dictGet self fid = none ∨ ∃ t, dictGet self fid = some (BVal.obj t)) :
    ∃ self2 t2,
      addOperation self (BVal.str fid) operation value false = .ok self2
      ∧ dictGet self2 fid = some (BVal.obj t2)
      ∧ dictGet t2 operation = some value := by
  rcases h with h | ⟨t, h⟩
  · refine ⟨dictSet (dictSet self fid (BVal.obj BDict.nil)) fid
      (BVal.obj (dictSet BDict.nil operation value)),
      dictSet BDict.nil operation value, ?_, ?_, ?_⟩
    · simp only [addOperation, h, Option.isSome_none, Bool.false_eq_true,
        if_false, dictGet_dictSet_self]
    · exact dictGet_dictSet_self _ fid _
    · exact dictGet_dictSet_self _ operation _
  · refine ⟨dictSet self fid (BVal.obj (dictSet t operation value)),
      dictSet t operation value, ?_, ?_, ?_⟩
    · simp only [addOperation, h, Option.isSome_some, Bool.false_eq_true,
        if_false, if_true]
    · exact dictGet_dictSet_self _ fid _
    · exact dictGet_dictSet_self _ operation _

/-- Writing to a field that is not yet in the dict appends the fresh
single-operator condition at the end, whatever the dict already holds. -/
theorem addOperation_fresh_field (self : BDict) (fid operation : String)
    (value : BVal) (hnone : dictGet self fid = none) :
    addOperation self (BVal.str fid) operation value false
      = .ok (dictAppend self (bd [(fid, BVal.obj (bd [(operation, value)]))])) := by
  simp only [addOperation, hnone, Option.isSome_none, Bool.false_eq_true,
    if_false, dictGet_dictSet_self]
  rw [dictSet_dictSet_self, dictSet_of_get_none self fid _ hnone]
  rfl

/-- C3, counterexample: the claim says that on a Filter in composite form
(single key `"$or"`), `_add_operation` must fail with `InvalidFilter`; on
the composite filter `{"$or": [filtA, filtB]}` it instead succeeds and
silently merges the field condition `{"x": {"$eq": 3}}` alongside the
combinator key. -/
theorem C3_composite_counterexample :
    addOperation compositeOr (BVal.str "x") "$eq" (BVal.num 3) false
      = .ok (dictAppend compositeOr (bd [("x", BVal.obj (bd [("$eq", BVal.num 3)]))])) :=
  rfl

/-- C3 (amended): `_add_operation` (the engine under `add_condition` and the
named condition methods) fails with `InvalidFilter` whenever the field
argument is not a string and, for a string field, never raises
`InvalidFilter` itself; a Filter currently in composite form is NOT
rejected — a fresh string field is silently appended alongside the
combinator key, both through `_add_operation` directly and through named
methods such as `equals` and `any_of`; independently of the filter's form,
`any_of`/`none_of` raise `InvalidFilter` when their `values` argument is not
a list. -/
theorem C3_condition_methods (self : BDict) (fieldId : BVal)
    (operation : String) (value : BVal) (invert : Bool) (fid : String)
    (vals : BVal) (ls : BList) :
    ((∀ t, fieldId ≠ BVal.str t) →
      addOperation self fieldId operation value invert
        = .error (.invalidFilter "field_id argument must be a string"))
    ∧ (∀ msg, addOperation self (BVal.str fid) operation value invert
        ≠ .error (.invalidFilter msg))
    ∧ (dictGet self fid = none →
        addOperation self (BVal.str fid) operation value false
          = .ok (dictAppend self (bd [(fid, BVal.obj (bd [(operation, value)]))])))
    ∧ (dictGet self fid = none →
        equals self (BVal.str fid) value
          = .ok (dictAppend self (bd [(fid, BVal.obj (bd [("$eq", value)]))])))
    ∧ (dictGet self fid = none →
        any_of self (BVal.str fid) (BVal.arr ls)
          = .ok (dictAppend self (bd [(fid, BVal.obj (bd [("$in", BVal.arr ls)]))])))
    ∧ ((∀ l, vals ≠ BVal.arr l) →
        any_of self fieldId vals
          = .error (.invalidFilter "values argument must be of type 'list'")
        ∧ none_of self fieldId vals
          = .error (.invalidFilter "values argument must be of type 'list'")) := by
  refine ⟨?_, ?_, addOperation_fresh_field self fid operation value,
    addOperation_fresh_field self fid "$eq" value,
    addOperation_fresh_field self fid "$in" (BVal.arr ls), ?_⟩
  · intro hns
    cases fieldId with
    | num x => rfl
    | str t => exact absurd rfl (hns t)
    | bool x => rfl
    | arr x => rfl
    | obj x => rfl
  · intro msg hcontra
    simp only [addOperation] at hcontra
    split at hcontra
    · split at hcontra
      · split at hcontra
        · simp at hcontra
        · simp at hcontra
      · simp at hcontra
    · simp at hcontra
    · simp at hcontra
  · intro hnl
    cases vals with
    | num x => exact ⟨rfl, rfl⟩
    | str x => exact ⟨rfl, rfl⟩
    | bool x => exact ⟨rfl, rfl⟩
    | arr x => exact absurd rfl (hnl x)
    | obj x => exact ⟨rfl, rfl⟩

/-- C3 witness: a non-string field is rejected with `InvalidFilter`; on the
composite filter a fresh field is silently appended through
`_add_operation`, `equals` and `any_of`; and `any_of`/`none_of` reject a
non-list `values` argument — all by applying `C3_condition_methods`. -/
theorem C3_witness :
    addOperation BDict.nil (BVal.num 0) "$gt" (BVal.num 1) false
      = .error (.invalidFilter "field_id argument must be a string")
    ∧ addOperation compositeOr (BVal.str "x") "$gt" (BVal.num 1) false
      = .ok (dictAppend compositeOr (bd [("x", BVal.obj (bd [("$gt", BVal.num 1)]))]))
    ∧ equals compositeOr (BVal.str "x") (BVal.num 1)
      = .ok (dictAppend compositeOr (bd [("x", BVal.obj (bd [("$eq", BVal.num 1)]))]))
    ∧ any_of compositeOr (BVal.str "x") (BVal.arr (bl [BVal.num 1]))
      = .ok (dictAppend compositeOr
          (bd [("x", BVal.obj (bd [("$in", BVal.arr (bl [BVal.num 1]))]))]))
    ∧ any_of compositeOr (BVal.str "x") (BVal.num 5)
      = .error (.invalidFilter "values argument must be of type 'list'")
    ∧ none_of compositeOr (BVal.str "x") (BVal.num 5)
      = .error (.invalidFilter "values argument must be of type 'list'") :=
  ⟨(C3_condition_methods BDict.nil (BVal.num 0) "$gt" (BVal.num 1) false "x"
      (BVal.num 5) BList.nil).1 (fun t => by simp),
   (C3_condition_methods compositeOr (BVal.str "x") "$gt" (BVal.num 1) false "x"
      (BVal.num 5) BList.nil).2.2.1 (by decide),
   (C3_condition_methods compositeOr (BVal.str "x") "$gt" (BVal.num 1) false "x"
      (BVal.num 5) BList.nil).2.2.2.1 (by decide),
   (C3_condition_methods compositeOr (BVal.str "x") "$gt" (BVal.num 1) false "x"
      (BVal.num 5) (bl [BVal.num 1])).2.2.2.2.1 (by decide),
   ((C3_condition_methods compositeOr (BVal.str "x") "$gt" (BVal.num 1) false "x"
      (BVal.num 5) BList.nil).2.2.2.2.2 (fun l => by simp)).1,
   ((C3_condition_methods compositeOr (BVal.str "x") "$gt" (BVal.num 1) false "x"
      (BVal.num 5) BList.nil).2.2.2.2.2 (fun l => by simp)).2⟩

/-- C4, counterexample: the claim quantifies over all pairwise-distinct
non-empty Filters, but when A is itself already an `$or` composite
(`compositeOr`), `A.or_filter(C)` appends to A's operand list instead of
producing `{"$or": [A₀, C]}`: the result is the three-element flattened list,
which is not Python-equal to the claimed two-element one. -/
theorem C4_composite_receiver_counterexample :
    (or_filter compositeOr filtC).2.2
      = .ok (bd [("$or", BVal.arr (bl [BVal.obj filtA, BVal.obj filtB, BVal.obj filtC]))])
    ∧ pyEqObj
        (bd [("$or", BVal.arr (bl [BVal.obj filtA, BVal.obj filtB, BVal.obj filtC]))])
        (bd [("$or", BVal.arr (bl [BVal.obj compositeOr, BVal.obj filtC]))]) = false :=
  ⟨rfl, rfl⟩

/-- C4 (amended): for non-empty A, B, C with B not Python-equal to A, A not
already an `$or` composite, and C not Python-equal to the intermediate
composite, `A.or_filter(B)` returns `{"$or": [A₀, B]}` (with A₀ = A's state
before the call, which the call leaves unchanged), chaining `.or_filter(C)`
yields the flattened `{"$or": [A₀, B, C]}` rather than a nested pair, and
`get_query` hands that document back unchanged. -/
theorem C4_or_chain_flattens (A B C : BDict)
    (hA : A ≠ BDict.nil) (hB : B ≠ BDict.nil) (hC : C ≠ BDict.nil)
    (hBA : pyEqObj B A = false)
    (hAkeys : dictKeys A ≠ ["$or"])
    (hCR : pyEqObj C (BDict.cons "$or"
      (BVal.arr (bl [BVal.obj A, BVal.obj B])) BDict.nil) = false) :
    or_filter A B
      = (A, B, .ok (BDict.cons "$or"
          (BVal.arr (bl [BVal.obj A, BVal.obj B])) BDict.nil))
    ∧ or_filter (BDict.cons "$or"
          (BVal.arr (bl [BVal.obj A, BVal.obj B])) BDict.nil) C
      = (BDict.cons "$or"
           (BVal.arr (bl [BVal.obj A, BVal.obj B, BVal.obj C])) BDict.nil, C,
         .ok (BDict.cons "$or"
           (BVal.arr (bl [BVal.obj A, BVal.obj B, BVal.obj C])) BDict.nil))
    ∧ get_query (BDict.cons "$or"
          (BVal.arr (bl [BVal.obj A, BVal.obj B, BVal.obj C])) BDict.nil)
      = BDict.cons "$or"
          (BVal.arr (bl [BVal.obj A, BVal.obj B, BVal.obj C])) BDict.nil := by
  simp only [bl] at hCR
  refine ⟨?_, ?_, rfl⟩
  · simp [or_filter, logicalOp, is_empty, dictLen_ne_zero A hA,
      dictLen_ne_zero B hB, hBA, hAkeys, bl]
  · simp [or_filter, logicalOp, is_empty, dictLen_ne_zero C hC,
      dictToList_ne_nil C hC, hCR, dictKeys, dictGet, dictLen, dictToList,
      blistAppend, bl]

/-- C4 witness: the amended flattening theorem applied to the concrete
filters `filtA`, `filtB`, `filtC`. -/
theorem C4_witness :
    or_filter filtA filtB
      = (filtA, filtB, .ok (BDict.cons "$or"
          (BVal.arr (bl [BVal.obj filtA, BVal.obj filtB])) BDict.nil))
    ∧ or_filter (BDict.cons "$or"
          (BVal.arr (bl [BVal.obj filtA, BVal.obj filtB])) BDict.nil) filtC
      = (BDict.cons "$or"
           (BVal.arr (bl [BVal.obj filtA, BVal.obj filtB, BVal.obj filtC])) BDict.nil,
         filtC,
         .ok (BDict.cons "$or"
           (BVal.arr (bl [BVal.obj filtA, BVal.obj filtB, BVal.obj filtC])) BDict.nil))
    ∧ get_query (BDict.cons "$or"
          (BVal.arr (bl [BVal.obj filtA, BVal.obj filtB, BVal.obj filtC])) BDict.nil)
      = BDict.cons "$or"
          (BVal.arr (bl [BVal.obj filtA, BVal.obj filtB, BVal.obj filtC])) BDict.nil :=
  C4_or_chain_flattens filtA filtB filtC (by decide) (by decide) (by decide)
    (by decide) (by decide) (by decide)

/-- C6: the claim (and `or_filter`'s own docstring) says the receiver A is
mutated in place so that after the call A itself holds `{"$or": [A₀, B]}`;
evaluating the embedded `or_filter` at A = filtA, B = filtB shows the
receiver's state after the call is still `filtA` (the body `self = self |
other` only rebinds a local name), while the composite comes back as a new
object — the receiver is not even Python-equal to it. -/
theorem C6_receiver_not_mutated :
    or_filter filtA filtB
      = (filtA, filtB, .ok (bd [("$or", BVal.arr (bl [BVal.obj filtA, BVal.obj filtB]))]))
    ∧ pyEqObj filtA
        (bd [("$or", BVal.arr (bl [BVal.obj filtA, BVal.obj filtB]))]) = false :=
  ⟨rfl, rfl⟩

/-- C7: if A is empty, or B is empty, or B is the same instance as A (same
state, well-formed as every real dict is), then `or_filter` and `and_filter`
raise `InvalidFilter` and both operands keep their states. -/
theorem C7_invalid_combination_rejected (a b : BDict)
    (h : a = BDict.nil ∨ b = BDict.nil ∨ (b = a ∧ dictWF a = true)) :
    (∃ msg, or_filter a b = (a, b, Except.error (PyErr.invalidFilter msg)))
    ∧ (∃ msg, and_filter a b = (a, b, Except.error (PyErr.invalidFilter msg))) :=
  ⟨logicalOp_error_of "$or" a b h, logicalOp_error_of "$and" a b h⟩

/-- C7 witness: combining `filtA` with itself is rejected by both
combinators, leaving the operand states unchanged. -/
theorem C7_witness :
    (∃ msg, or_filter filtA filtA
      = (filtA, filtA, Except.error (PyErr.invalidFilter msg)))
    ∧ (∃ msg, and_filter filtA filtA
      = (filtA, filtA, Except.error (PyErr.invalidFilter msg))) :=
  C7_invalid_combination_rejected filtA filtA (Or.inr (Or.inr ⟨rfl, by decide⟩))

/-- C9: the self-combination guard is `other == self`, a value comparison,
so any operand Python-equal to the (non-empty) receiver — equal as a
mapping, regardless of object identity or key order — is rejected with
`InvalidFilter` by both combinators. -/
theorem C9_equal_by_value_rejected (a b : BDict)
    (ha : a ≠ BDict.nil) (heq : pyEqObj b a = true) :
    or_filter a b = (a, b,
      Except.error (PyErr.invalidFilter "The argument cannot be the caller filter"))
    ∧ and_filter a b = (a, b,
      Except.error (PyErr.invalidFilter "The argument cannot be the caller filter")) := by
  have han := dictLen_ne_zero a ha
  have hbn : dictLen b ≠ 0 := by
    have := pyEqObj_len b a heq
    omega
  constructor <;> simp [or_filter, and_filter, logicalOp, is_empty, han, hbn, heq]

/-- Concrete filter `{"x": {"$eq": 1}, "y": {"$gt": 0}}`. -/
def filtXY : BDict :=
  bd [("x", BVal.obj (bd [("$eq", BVal.num 1)])),
      ("y", BVal.obj (bd [("$gt", BVal.num 0)]))]

/-- The same mapping as `filtXY` with the two keys inserted in the other
order: a distinct dict object in Python, equal as a mapping. -/
def filtYX : BDict :=
  bd [("y", BVal.obj (bd [("$gt", BVal.num 0)])),
      ("x", BVal.obj (bd [("$eq", BVal.num 1)]))]

/-- C9 witness: two structurally different but Python-equal filters are
rejected by both combinators. -/
theorem C9_witness :
    or_filter filtXY filtYX = (filtXY, filtYX,
      Except.error (PyErr.invalidFilter "The argument cannot be the caller filter"))
    ∧ and_filter filtXY filtYX = (filtXY, filtYX,
      Except.error (PyErr.invalidFilter "The argument cannot be the caller filter")) :=
  C9_equal_by_value_rejected filtXY filtYX (by decide) (by decide)

/-- C8: for every field whose slot is absent or holds a sub-dict, and every
bbox input `[minx, miny, maxx, maxy]`, `geo_within(field, geo, "bbox")`
stores under the field a `$geoWithin` condition whose geometry is the closed
five-point ring (minx,miny) → (minx,maxy) → (maxx,maxy) → (maxx,miny) →
(minx,miny). -/
theorem C8_geo_within_bbox (self : BDict) (fid : String)
    (minx miny maxx maxy : BVal)
    (h : dictGet self fid = none ∨ ∃ t, dictGet self fid = some (BVal.obj t)) :
    ∃ self2 t2,
      geo_within self (BVal.str fid) (bl [minx, miny, maxx, maxy]) "bbox" false
        = .ok self2
      ∧ dictGet self2 fid = some (BVal.obj t2)
      ∧ dictGet t2 "$geoWithin"
          = some (BVal.obj (bd [("$geometry", BVal.obj (bd
              [("coordinates", BVal.arr (bl [BVal.arr (bl
                  [BVal.arr (bl [minx, miny]), BVal.arr (bl [minx, maxy]),
                   BVal.arr (bl [maxx, maxy]), BVal.arr (bl [maxx, miny]),
                   BVal.arr (bl [minx, miny])])])),
               ("type", BVal.str "Polygon")]))])) := by
  have hred : geo_within self (BVal.str fid) (bl [minx, miny, maxx, maxy]) "bbox" false
      = addOperation self (BVal.str fid) "$geoWithin"
          (BVal.obj (bd [("$geometry", BVal.obj (bd
              [("coordinates", BVal.arr (bl [BVal.arr (bl
                  [BVal.arr (bl [minx, miny]), BVal.arr (bl [minx, maxy]),
                   BVal.arr (bl [maxx, maxy]), BVal.arr (bl [maxx, miny]),
                   BVal.arr (bl [minx, miny])])])),
               ("type", BVal.str "Polygon")]))])) false := rfl
  rw [hred]
  exact addOperation_stores self fid "$geoWithin" _ h

/-- C8 witness: `geo_within(field, [0, 0, 10, 10], "bbox")` on an empty
filter produces the ring over (0,0), (0,10), (10,10), (10,0), (0,0). -/
theorem C8_witness :
    ∃ self2 t2,
      geo_within BDict.nil (BVal.str "f")
          (bl [BVal.num 0, BVal.num 0, BVal.num 10, BVal.num 10]) "bbox" false
        = .ok self2
      ∧ dictGet self2 "f" = some (BVal.obj t2)
      ∧ dictGet t2 "$geoWithin"
          = some (BVal.obj (bd [("$geometry", BVal.obj (bd
              [("coordinates", BVal.arr (bl [BVal.arr (bl
                  [BVal.arr (bl [BVal.num 0, BVal.num 0]),
                   BVal.arr (bl [BVal.num 0, BVal.num 10]),
                   BVal.arr (bl [BVal.num 10, BVal.num 10]),
                   BVal.arr (bl [BVal.num 10, BVal.num 0]),
                   BVal.arr (bl [BVal.num 0, BVal.num 0])])])),
               ("type", BVal.str "Polygon")]))])) :=
  C8_geo_within_bbox BDict.nil "f" (BVal.num 0) (BVal.num 0) (BVal.num 10)
    (BVal.num 10) (Or.inl rfl)

/-- C10: `get_query` returns the very same object reference (`return self`),
so it is the identity on references, and any condition later added through
the filter is visible through a previously returned query document: reading
the heap through the old return value after `_add_operation` sees exactly
what reading through the filter's own reference sees. -/
theorem C10_get_query_is_identity :
    ∀ (h : Heap) (r : Nat) (fieldId : BVal) (operation : String) (value : BVal)
      (invert : Bool),
      getQueryRef h r = r
      ∧ (addOperationRef h r fieldId operation value invert).map
            (fun h2 => heapGet h2 (getQueryRef h r))
        = (addOperationRef h r fieldId operation value invert).map
            (fun h2 => heapGet h2 r) :=
  fun _ _ _ _ _ _ => ⟨rfl, rfl⟩

/-- C1: the claim ("wrapped into InternalError and propagated") matches the
error-handling design the repository applies at query-execution time
(`connection._pymongo_call` does `raise InternalError(e)`), but
`Result.__next__` never produces an `InternalError` during iteration — and
it does not even reach its own `raise err`: evaluating
`"Unhandled exception in result: " + err` on result.py line 113 raises
`TypeError` first. Evaluating the embedded step on a stream whose cursor
fails with the non-reserved code 99 shows the caller receives that
`TypeError` (with the `OperationFailure` only as chained context), the
stream left mid-source with the cursor partially consumed. -/
theorem C1_logging_concat_raises_typeerror :
    resultNext ⟨[[Pull.fail 99, Pull.doc 7]], 0, 0, 0⟩
      = (StepOut.raised (PyExc.typeError 99), ⟨[[Pull.doc 7]], 0, 0, 0⟩) := rfl

/-- C2: a cursor raising the reserved "unauthorized command" code makes the
step behave exactly like the step on the stream advanced to the next source,
with no error surfaced; and the concrete three-source stream whose second
source fails with code 13 while sources 1 and 3 hold two documents each
yields exactly [doc 1, doc 2, doc 3, doc 4] in source order, error-free. -/
theorem C2_unauthorized_source_skipped (s : ResultState) (rest : List Pull)
    (hcur : s.cursors.get? s.idx
      = some (Pull.fail UNAUTHORIZED_COMMAND :: rest))
    (hguard : ¬ (s.cursors.length ≤ s.idx ∨
      (s.limit ≤ s.docsReturned ∧ 0 < s.limit))) :
    resultNext s
      = resultNext { s with idx := s.idx + 1,
                            cursors := s.cursors.set s.idx rest }
    ∧ runResult 10
        ⟨[[Pull.doc 1, Pull.doc 2], [Pull.fail 13], [Pull.doc 3, Pull.doc 4]],
         0, 0, 0⟩
      = ([1, 2, 3, 4], none) := by
  refine ⟨?_, rfl⟩
  have hfuel : s.cursors.length + 1 - s.idx = (s.cursors.length - s.idx) + 1 := by
    have hidx : s.idx < s.cursors.length := by
      by_contra hcon
      exact hguard (Or.inl (Nat.le_of_not_lt hcon))
    omega
  have hfuel2 : (s.cursors.set s.idx rest).length + 1 - (s.idx + 1)
      = s.cursors.length - s.idx := by
    simp only [List.length_set]
    omega
  conv_lhs => rw [resultNext, hfuel]
  conv_rhs => rw [resultNext]
  simp only [List.length_set, resultNextAux]
  rw [if_neg hguard, hcur]
  simp only [ne_eq, not_true_eq_false, if_false, ite_false, reduceIte]
  rw [show s.cursors.length + 1 - (s.idx + 1) = s.cursors.length - s.idx from by omega]

/-- C2 witness: the skip theorem at a concrete two-pull stream whose first
cursor fails with the reserved code. -/
theorem C2_witness :
    resultNext ⟨[[Pull.fail 13, Pull.doc 9]], 0, 0, 0⟩
      = resultNext ⟨[[Pull.doc 9]], 1, 0, 0⟩
    ∧ runResult 10
        ⟨[[Pull.doc 1, Pull.doc 2], [Pull.fail 13], [Pull.doc 3, Pull.doc 4]],
         0, 0, 0⟩
      = ([1, 2, 3, 4], none) :=
  C2_unauthorized_source_skipped ⟨[[Pull.fail 13, Pull.doc 9]], 0, 0, 0⟩
    [Pull.doc 9] rfl (by decide)

/-- C5: once the running count has reached a positive limit, the very next
step ends the iteration regardless of remaining sources; `limit(qty)` with
`qty ≤ 0` stores 0, meaning unlimited; a stream with `limit(3)` over one
source of 10 documents yields exactly [0, 1, 2] and stops, while the same
stream with `limit(-7)` yields all 10 documents. -/
theorem C5_limit_enforced (s : ResultState) (qty : Int) :
    (0 < s.limit → s.limit ≤ s.docsReturned →
      resultNext s = (StepOut.stopIteration, s))
    ∧ (qty ≤ 0 → (setLimit s qty).limit = 0)
    ∧ runResult 20 (setLimit ⟨[(List.range 10).map Pull.doc], 0, 0, 0⟩ 3)
      = ([0, 1, 2], none)
    ∧ runResult 20 (setLimit ⟨[(List.range 10).map Pull.doc], 0, 0, 0⟩ (-7))
      = ([0, 1, 2, 3, 4, 5, 6, 7, 8, 9], none) := by
  refine ⟨?_, ?_, rfl, rfl⟩
  · intro hpos hreach
    unfold resultNext
    cases hfuel : s.cursors.length + 1 - s.idx with
    | zero => rfl
    | succ k =>
        simp only [resultNextAux]
        rw [if_pos (Or.inr ⟨hreach, hpos⟩)]
  · intro hq
    simp only [setLimit]
    omega

/-- C5 witness: the limit theorem applied to a stream whose count equals its
limit of 3 (the pending document is not yielded), and to `limit(-4)`. -/
theorem C5_witness :
    resultNext ⟨[[Pull.doc 5]], 0, 3, 3⟩
      = (StepOut.stopIteration, ⟨[[Pull.doc 5]], 0, 3, 3⟩)
    ∧ (setLimit ⟨[], 0, 0, 0⟩ (-4)).limit = 0 :=
  ⟨(C5_limit_enforced ⟨[[Pull.doc 5]], 0, 3, 3⟩ (-4)).1 (by decide) (by decide),
   (C5_limit_enforced ⟨[], 0, 0, 0⟩ (-4)).2.1 (by decide)⟩

end Querier
